import Mathlib

/-!
Verification of the generation-orchestration and session-state controller of
the Diffusion Studio repository (src/App.tsx, src/types.ts).

The JavaScript source is shallowly embedded: external API calls are modelled
as oracles (one outcome per attempt index), JS falsiness of strings is made
explicit, and every state update is the pure function the source applies
inside setSession.
-/

/-- Char-list prefix test, used to build the substring test below. -/
def hasPrefixChars : List Char → List Char → Bool
  | [], _ => true
  | _ :: _, [] => false
  | a :: as, b :: bs => a == b && hasPrefixChars as bs

/-- Char-list substring test. -/
def hasSubChars (needle : List Char) : List Char → Bool
  | [] => hasPrefixChars needle []
  | c :: cs => hasPrefixChars needle (c :: cs) || hasSubChars needle cs

/-- Embedding of the JavaScript String.prototype.includes test used by the
retry wrapper: true when sub occurs contiguously inside s. -/
def includesStr (s sub : String) : Bool :=
  hasSubChars sub.toList s.toList

/-- JS string-or-default: x or d where x may be undefined (none) or the empty
string, both of which are falsy and select the default d. -/
def jsOrStr (x : Option String) (d : String) : String :=
  match x with
  | none => d
  | some s => if s = "" then d else s

/-- A JavaScript error value as seen by the retry wrapper: only its message
field (possibly undefined) is inspected. -/
structure GError where
  message : Option String
deriving DecidableEq, Repr

/-- Embedding of the errorMsg computation: error.message or the empty string. -/
def errMsg (e : GError) : String :=
  jsOrStr e.message ""

/-- Embedding of the rate-limit test in callGeminiWithRetry:
errorMsg.includes 429 or errorMsg.includes RESOURCE_EXHAUSTED. -/
def isQuotaError (e : GError) : Bool :=
  includesStr (errMsg e) "429" || includesStr (errMsg e) "RESOURCE_EXHAUSTED"

/-- Observable outcome of one run of the retry wrapper: the value returned or
error thrown (the thrown value is none when the loop body never ran and the
undefined lastError is thrown), the number of invocations of the wrapped
operation, and the list of backoff waits performed, in order. -/
structure RetryOutcome (α : Type) where
  result : Except (Option GError) α
  calls : Nat
  waits : List Nat
deriving Repr

/-- Embedding of the for-loop of callGeminiWithRetry (src/App.tsx lines
14-31). The operation is an oracle fn giving the outcome of its i-th
invocation. Arguments after the delay: current loop index i, remaining
iterations, lastError so far, waits so far. -/
def retryLoop {α : Type} (fn : Nat → Except GError α) (initialDelay : Nat) :
    Nat → Nat → Option GError → List Nat → RetryOutcome α
  | i, 0, lastError, ws => ⟨Except.error lastError, i, ws⟩
  | i, remaining + 1, _, ws =>
    match fn i with
    | Except.ok v => ⟨Except.ok v, i + 1, ws⟩
    | Except.error e =>
      if isQuotaError e then
        retryLoop fn initialDelay (i + 1) remaining (some e)
          (ws ++ [initialDelay * (i + 1)])
      else ⟨Except.error (some e), i + 1, ws⟩

/-- Embedding of callGeminiWithRetry (src/App.tsx lines 14-31); the source
defaults are maxRetries = 3, initialDelay = 3000, passed explicitly here. -/
def callGeminiWithRetry {α : Type} (fn : Nat → Except GError α)
    (maxRetries initialDelay : Nat) : RetryOutcome α :=
  retryLoop fn initialDelay 0 maxRetries none []

/-- Artifact status, from src/types.ts. -/
inductive ArtifactStatus
  | idle
  | streaming
  | complete
  | error
deriving DecidableEq, Repr

/-- Artifact type union from src/types.ts: ui, logic or architecture. -/
inductive ArtifactKind
  | ui
  | logic
  | architecture
deriving DecidableEq, Repr

/-- Artifact record from src/types.ts (the variant with variations).
currentVariationIndex is an Int because the source stores an arbitrary JS
number passed to switchVariation. -/
structure Artifact where
  id : String
  title : String
  type : ArtifactKind
  content : String
  status : ArtifactStatus
  reasoning : Option String
  variations : Option (List String)
  currentVariationIndex : Option Int
deriving DecidableEq, Repr

/-- Session record from src/types.ts. -/
structure Session where
  id : String
  prompt : String
  artifacts : List Artifact
  timestamp : Nat
deriving DecidableEq, Repr

/-- Top-level controller state relevant to refineArtifact: the session and
the isRefining flag. -/
structure AppState where
  session : Option Session
  isRefining : Bool
deriving DecidableEq, Repr

/-- JS bracket lookup l[index] for a possibly negative Int index: some element
when the index is a valid position, undefined (none) otherwise. -/
def jsIndex (l : List String) (i : Int) : Option String :=
  if h : 0 ≤ i ∧ i.toNat < l.length then some (l.get ⟨i.toNat, h.2⟩) else none

/-- JS optional-chain lookup variations?.[index]. -/
def optIndex (v : Option (List String)) (i : Int) : Option String :=
  match v with
  | none => none
  | some l => jsIndex l i

/-- Per-artifact body of switchVariation (src/App.tsx lines 268-273 and
652-657): content becomes variations?.[index] with JS-falsy fallback to the
existing content, and currentVariationIndex becomes index unconditionally. -/
def switchVariationArt (index : Int) (a : Artifact) : Artifact :=
  { a with
    content := jsOrStr (optIndex a.variations index) a.content
    currentVariationIndex := some index }

/-- Embedding of switchVariation: map the per-artifact update over the
artifact whose id matches. -/
def switchVariation (s : Session) (id : String) (index : Int) : Session :=
  { s with
    artifacts := s.artifacts.map fun a =>
      if a.id = id then switchVariationArt index a else a }

/-- Per-artifact generation-completion update of startGeneration
(src/App.tsx lines 114-129): content, status complete, reasoning, a fresh
one-element variations list and currentVariationIndex 0. -/
def completeArtifact (id content reasoning : String) (a : Artifact) : Artifact :=
  if a.id = id then
    { a with
      content := content
      status := ArtifactStatus.complete
      reasoning := some reasoning
      variations := some [content]
      currentVariationIndex := some 0 }
  else a

/-- Embedding of the setSession call that lands one generated artifact. -/
def applyCompletion (s : Session) (id content reasoning : String) : Session :=
  { s with artifacts := s.artifacts.map (completeArtifact id content reasoning) }

/-- Per-artifact refinement-completion update of refineArtifact
(src/App.tsx lines 242-260): appends the updated content to the existing
variations (defaulting a missing list to empty), points
currentVariationIndex at the new last element and replaces content. -/
def refineCompleteArt (id updatedContent : String) (a : Artifact) : Artifact :=
  if a.id = id then
    let newVariations :=
      (match a.variations with | some v => v | none => []) ++ [updatedContent]
    { a with
      content := updatedContent
      status := ArtifactStatus.complete
      variations := some newVariations
      currentVariationIndex := some ((newVariations.length : Int) - 1) }
  else a

/-- Embedding of the setSession call that lands one refinement result. -/
def refineComplete (s : Session) (id updatedContent : String) : Session :=
  { s with artifacts := s.artifacts.map (refineCompleteArt id updatedContent) }

/-- Embedding of the onRemove handler (src/App.tsx line 441): filter the
artifact out of the session. -/
def removeArtifact (s : Session) (id : String) : Session :=
  { s with artifacts := s.artifacts.filter fun a => a.id != id }

/-- Embedding of the append performed by addAgent before generating content
(src/App.tsx line 183). -/
def appendArtifact (s : Session) (a : Artifact) : Session :=
  { s with artifacts := s.artifacts ++ [a] }

/-- Per-artifact update that marks the refinement target as streaming with a
fresh reasoning string (src/App.tsx lines 226-229). -/
def streamingArt (id reasoning : String) (a : Artifact) : Artifact :=
  if a.id = id then
    { a with status := ArtifactStatus.streaming, reasoning := some reasoning }
  else a

/-- Embedding of the setSession call at the start of refineArtifact. -/
def setStreaming (s : Session) (id reasoning : String) : Session :=
  { s with artifacts := s.artifacts.map (streamingArt id reasoning) }

/-- The three seed artifacts of startGeneration (src/App.tsx lines 71-75). -/
def initialArtifacts : List Artifact :=
  [ { id := "art-1", title := "UX Expert Strategy", type := ArtifactKind.architecture,
      content := "", status := ArtifactStatus.streaming,
      reasoning := some "Analyzing user journey...",
      variations := none, currentVariationIndex := none },
    { id := "art-2", title := "Persona Specialist Strategy", type := ArtifactKind.logic,
      content := "", status := ArtifactStatus.streaming,
      reasoning := some "Defining core personas...",
      variations := none, currentVariationIndex := none },
    { id := "art-3", title := "UI Expert Strategy", type := ArtifactKind.ui,
      content := "", status := ArtifactStatus.streaming,
      reasoning := some "Projecting visual identity...",
      variations := none, currentVariationIndex := none } ]

/-- Embedding of the setSession call creating a session (src/App.tsx lines
77-82): seed artifacts in streaming state before any network call. -/
def createSession (sessionId activePrompt : String) (ts : Nat) : Session :=
  { id := sessionId, prompt := activePrompt
    artifacts := initialArtifacts, timestamp := ts }

/-- The reasoning string attached on generation completion (src/App.tsx line
112): the first 30 characters of the prompt inside a fixed template. -/
def synthesizedReasoning (activePrompt : String) : String :=
  "Synthesized based on your goal: \"" ++ activePrompt.take 30 ++ "...\""

/-- Embedding of the sequential per-artifact generation loop of
startGeneration (src/App.tsx lines 90-135): each artifact content call runs
under the retry wrapper; a thrown error escapes the loop to the catch block,
which only logs, so the session is left as it was at that point. The oracle
fns gives, per artifact id and attempt index, the outcome of the wrapped
content call (whose value already includes the source fallback string). -/
def runGenerationLoop (activePrompt : String)
    (fns : String → Nat → Except GError String) :
    List Artifact → Session → Session
  | [], s => s
  | art :: rest, s =>
    match (callGeminiWithRetry (fns art.id) 3 3000).result with
    | Except.error _ => s
    | Except.ok content =>
      runGenerationLoop activePrompt fns rest
        (applyCompletion s art.id content (synthesizedReasoning activePrompt))

/-- Embedding of the session-visible effect of one startGeneration run
(src/App.tsx lines 61-141): seed the session, then run the sequential loop. -/
def startGenerationRun (activePrompt sessionId : String) (ts : Nat)
    (fns : String → Nat → Except GError String) : Session :=
  runGenerationLoop activePrompt fns initialArtifacts
    (createSession sessionId activePrompt ts)

/-- Embedding of refineArtifact (src/App.tsx lines 219-266). The guard
returns before touching isRefining; after setIsRefining true, a missing
target returns early, bypassing the try-finally that would reset the flag.
On an API error the catch only logs and the finally resets the flag,
leaving the target artifact streaming. -/
def refineArtifact (st : AppState) (id : String)
    (fn : Nat → Except GError String) : AppState :=
  match st.session with
  | none => st
  | some sess =>
    if st.isRefining then st
    else
      match sess.artifacts.find? (fun a => a.id == id) with
      | none => { st with isRefining := true }
      | some _ =>
        let s1 := setStreaming sess id "Recalibrating projection..."
        match (callGeminiWithRetry fn 3 3000).result with
        | Except.ok updatedContent =>
          { session := some (refineComplete s1 id updatedContent), isRefining := false }
        | Except.error _ =>
          { session := some s1, isRefining := false }

/-- The phase-1 role decision of addAgent after JSON.parse: a JS object whose
title and type fields may each be absent. -/
structure RoleDecision where
  title : Option String
  type : Option ArtifactKind
deriving DecidableEq, Repr

/-- JS template-literal interpolation of a possibly undefined string. -/
def jsShow (o : Option String) : String :=
  match o with
  | some s => s
  | none => "undefined"

/-- The new artifact appended by addAgent (src/App.tsx lines 173-181):
missing or empty title and missing type fall back to the defaults. -/
def mkNewAgent (newId : String) (rd : RoleDecision) : Artifact :=
  { id := newId
    title := jsOrStr rd.title "Module Expansion"
    type := (match rd.type with | some t => t | none => ArtifactKind.architecture)
    content := ""
    status := ArtifactStatus.streaming
    reasoning := some ("Onboarding " ++ jsOrStr rd.title "new agent" ++ "...")
    variations := none
    currentVariationIndex := none }

/-- Embedding of the phase-2 completion update of addAgent (src/App.tsx
lines 196-211). -/
def addAgentComplete (s : Session) (newId content : String) (rd : RoleDecision) : Session :=
  { s with
    artifacts := s.artifacts.map fun a =>
      if a.id = newId then
        { a with
          content := content
          status := ArtifactStatus.complete
          reasoning := some ("Expansion module synthesized by " ++ jsShow rd.title ++ ".")
          variations := some [content]
          currentVariationIndex := some 0 }
      else a }

/-- Embedding of the JSON.parse call of the phase-1 role decision
(src/App.tsx line 170): an empty or undefined response text is replaced by
the two-character empty-object literal before parsing; parse itself (the JS
builtin) is an oracle that either returns an object or throws. -/
def parseRoleText (parse : String → Except GError RoleDecision)
    (text : Option String) : Except GError RoleDecision :=
  parse (jsOrStr text "\x7b\x7d")

/-- Embedding of addAgent (src/App.tsx lines 143-217): phase 1 decides the
role under the retry wrapper (a thrown parse error reaches the catch block
and the session is left unchanged); phase 2 appends the new streaming agent,
then generates its content under the retry wrapper (an error there reaches
the catch with the agent already appended and still streaming). -/
def addAgent (sess : Session) (isGenerating : Bool) (newId : String)
    (roleFn : Nat → Except GError RoleDecision)
    (contentFn : Nat → Except GError String) : Session :=
  if isGenerating then sess
  else
    match (callGeminiWithRetry roleFn 3 3000).result with
    | Except.error _ => sess
    | Except.ok rd =>
      let withAgent := appendArtifact sess (mkNewAgent newId rd)
      match (callGeminiWithRetry contentFn 3 3000).result with
      | Except.error _ => withAgent
      | Except.ok content => addAgentComplete withAgent newId content rd

/-- Embedding of exportAllArtifacts (src/App.tsx lines 285-294): one section
per artifact, a heading built from the title followed by the content, the
sections joined with a newline. -/
def exportAllArtifacts (s : Session) : String :=
  String.intercalate "\n"
    (s.artifacts.map fun a => "## " ++ a.title ++ "\n\n" ++ a.content ++ "\n\n")

/-- Bounds invariant of one artifact: whenever variations is a non-empty
list, currentVariationIndex is defined and inside its bounds. -/
def artInvHolds (a : Artifact) : Bool :=
  match a.variations with
  | none => true
  | some l =>
    if l.isEmpty then true
    else
      match a.currentVariationIndex with
      | none => false
      | some i => decide (0 ≤ i ∧ i < (l.length : Int))

/-- Bounds invariant of a session: every artifact satisfies artInvHolds. -/
def sessionInvHolds (s : Session) : Bool :=
  s.artifacts.all artInvHolds

/-- Demonstration oracle: two quota failures, then success. -/
def demoQuotaFn : Nat → Except GError String :=
  fun i => if i < 2 then Except.error { message := some "429 quota" } else Except.ok "done"

/-- Demonstration non-quota error: an auth failure message. -/
def authError : GError :=
  { message := some "401 unauthorized" }

/-- Demonstration oracle failing every attempt with a non-quota error. -/
def demoAuthFn : Nat → Except GError String :=
  fun _ => Except.error authError

/-- Demonstration per-artifact oracle where every generation call fails with
a non-quota error on the first attempt. -/
def failAllFns : String → Nat → Except GError String :=
  fun _ _ => Except.error authError

/-- A completed artifact holding one variation v0. -/
def v0Artifact : Artifact :=
  { id := "art-1", title := "UX Expert Strategy", type := ArtifactKind.architecture,
    content := "v0", status := ArtifactStatus.complete, reasoning := none,
    variations := some ["v0"], currentVariationIndex := some 0 }

/-- A one-artifact session used as a concrete test state. -/
def demoSession : Session :=
  { id := "s1", prompt := "Build a todo app", artifacts := [v0Artifact], timestamp := 0 }

/-- An artifact whose stored variation is the empty string while its content
is the generation-error fallback text; such pairs arise when the API returns
empty text (the parallel variant stores result.text or empty as the
variation but result.text or a fallback message as the content). -/
def emptyVariationArtifact : Artifact :=
  { id := "art-1", title := "Technical Architecture", type := ArtifactKind.architecture,
    content := "Error generating content", status := ArtifactStatus.complete,
    reasoning := none, variations := some [""], currentVariationIndex := some 0 }

/-- A one-artifact session around emptyVariationArtifact. -/
def emptyVariationSession : Session :=
  { id := "s2", prompt := "Build a todo app",
    artifacts := [emptyVariationArtifact], timestamp := 0 }

/-- App state ready to refine demoSession. -/
def demoRefineState : AppState :=
  { session := some demoSession, isRefining := false }

/-- JSON SyntaxError thrown by JSON.parse on non-JSON text. -/
def syntaxErrorG : GError :=
  { message := some "Unexpected token o in JSON at position 1" }

/-- A JSON.parse oracle that parses only the empty-object literal and throws
a SyntaxError on everything else. -/
def demoParse : String → Except GError RoleDecision :=
  fun s => if s = "\x7b\x7d" then Except.ok { title := none, type := none }
           else Except.error syntaxErrorG

/-- Helper: a map whose function fixes every member leaves the list intact. -/
lemma map_self_of_fix {l : List Artifact} {f : Artifact → Artifact}
    (h : ∀ a ∈ l, f a = a) : l.map f = l := by
  induction l with
  | nil => rfl
  | cons a as ih =>
    simp only [List.map_cons, h a (List.mem_cons_self a as)]
    rw [ih fun x hx => h x (List.mem_cons_of_mem a hx)]

/-- Helper: generation completion preserves the per-artifact bounds invariant. -/
lemma artInv_complete (id c r : String) (a : Artifact) (h : artInvHolds a = true) :
    artInvHolds (completeArtifact id c r a) = true := by
  by_cases hid : a.id = id
  · simp [completeArtifact, hid, artInvHolds]
  · simpa [completeArtifact, hid] using h

/-- Helper: refinement completion preserves the bounds invariant. -/
lemma artInv_refine (id c : String) (a : Artifact) (h : artInvHolds a = true) :
    artInvHolds (refineCompleteArt id c a) = true := by
  by_cases hid : a.id = id
  · cases hv : a.variations with
    | none => simp [refineCompleteArt, hid, hv, artInvHolds]
    | some l => simp [refineCompleteArt, hid, hv, artInvHolds, List.isEmpty_iff]
  · simpa [refineCompleteArt, hid] using h

/-- Helper: marking an artifact streaming preserves the bounds invariant. -/
lemma artInv_streaming (id r : String) (a : Artifact) (h : artInvHolds a = true) :
    artInvHolds (streamingArt id r a) = true := by
  by_cases hid : a.id = id
  · simpa [streamingArt, hid, artInvHolds] using h
  · simpa [streamingArt, hid] using h

/-- Helper: a variation switch with an in-range index (or onto an empty or
missing variations list) establishes the bounds invariant. -/
lemma artInv_switch_inRange (idx : Int) (a : Artifact)
    (h : (a.variations.getD []).isEmpty = true ∨
         (0 ≤ idx ∧ idx < ((a.variations.getD []).length : Int))) :
    artInvHolds (switchVariationArt idx a) = true := by
  cases hv : a.variations with
  | none => simp [switchVariationArt, artInvHolds, hv]
  | some l =>
    rcases h with h | h
    · simp [hv] at h
      simp [switchVariationArt, artInvHolds, hv, h]
    · simp [hv] at h
      simp [switchVariationArt, artInvHolds, hv, h]

/-- Helper: pointwise invariance lifts through List.map. -/
lemma allInv_map {l : List Artifact} {f : Artifact → Artifact}
    (h : ∀ a ∈ l, artInvHolds (f a) = true) :
    (l.map f).all artInvHolds = true := by
  rw [List.all_eq_true]
  intro x hx
  rcases List.mem_map.mp hx with ⟨a, ha, rfl⟩
  exact h a ha

/-- C1 counterexample: on a session satisfying the bounds invariant,
switchVariation with the out-of-range index 5 on a one-element variations
list leaves currentVariationIndex at 5, outside bounds, refuting the claim
that switchVariation with any integer index keeps the index inside bounds. -/
theorem switchVariation_out_of_range_counterexample :
    sessionInvHolds demoSession = true ∧
    sessionInvHolds (switchVariation demoSession "art-1" 5) = false ∧
    (switchVariation demoSession "art-1" 5).artifacts.map Artifact.currentVariationIndex
      = [some 5] ∧
    (switchVariation demoSession "art-1" 5).artifacts.map Artifact.variations
      = [some ["v0"]] := by decide

/-- C1 amended: every session-state operation preserves the bounds invariant
0 <= currentVariationIndex < variations.length for non-empty variations —
session creation, generation completion, refinement completion, the
streaming status update, artifact removal, artifact append (of an artifact
itself satisfying the invariant) — and switchVariation preserves it whenever
the requested index is in range for the target artifact; only an
out-of-range switchVariation escapes it. -/
theorem session_ops_preserve_variation_bounds :
    (∀ sid p ts, sessionInvHolds (createSession sid p ts) = true) ∧
    (∀ s id c r, sessionInvHolds s = true →
        sessionInvHolds (applyCompletion s id c r) = true) ∧
    (∀ s id c, sessionInvHolds s = true →
        sessionInvHolds (refineComplete s id c) = true) ∧
    (∀ s id r, sessionInvHolds s = true →
        sessionInvHolds (setStreaming s id r) = true) ∧
    (∀ s id, sessionInvHolds s = true →
        sessionInvHolds (removeArtifact s id) = true) ∧
    (∀ s a, sessionInvHolds s = true → artInvHolds a = true →
        sessionInvHolds (appendArtifact s a) = true) ∧
    (∀ s id idx, sessionInvHolds s = true →
      (∀ a ∈ s.artifacts, a.id = id →
        (a.variations.getD []).isEmpty = true ∨
        (0 ≤ idx ∧ idx < ((a.variations.getD []).length : Int))) →
      sessionInvHolds (switchVariation s id idx) = true) := by
  refine ⟨?_, ?_, ?_, ?_, ?_, ?_, ?_⟩
  · intro sid p ts; rfl
  · intro s id c r h
    rw [sessionInvHolds, List.all_eq_true] at h
    exact allInv_map fun a ha => artInv_complete id c r a (h a ha)
  · intro s id c h
    rw [sessionInvHolds, List.all_eq_true] at h
    exact allInv_map fun a ha => artInv_refine id c a (h a ha)
  · intro s id r h
    rw [sessionInvHolds, List.all_eq_true] at h
    exact allInv_map fun a ha => artInv_streaming id r a (h a ha)
  · intro s id h
    rw [sessionInvHolds, List.all_eq_true] at h
    rw [sessionInvHolds, removeArtifact, List.all_eq_true]
    intro a ha
    exact h a (List.mem_of_mem_filter ha)
  · intro s a h ha
    rw [sessionInvHolds, List.all_eq_true] at h
    rw [sessionInvHolds, appendArtifact, List.all_eq_true]
    intro x hx
    rcases List.mem_append.mp hx with hx | hx
    · exact h x hx
    · rcases List.mem_singleton.mp hx with rfl; exact ha
  · intro s id idx h h2
    rw [sessionInvHolds, List.all_eq_true] at h
    apply allInv_map
    intro a ha
    by_cases hid : a.id = id
    · simp only [hid, if_pos rfl]
      exact artInv_switch_inRange idx a (h2 a ha hid)
    · simpa [hid] using h a ha

/-- Witness for C1 amended at concrete sessions and operations. -/
theorem session_ops_preserve_variation_bounds_witness :
    sessionInvHolds (createSession "s1" "Build a todo app" 0) = true ∧
    sessionInvHolds (applyCompletion demoSession "art-1" "c" "r") = true ∧
    sessionInvHolds (refineComplete demoSession "art-1" "v1") = true ∧
    sessionInvHolds (setStreaming demoSession "art-1" "r") = true ∧
    sessionInvHolds (removeArtifact demoSession "art-1") = true ∧
    sessionInvHolds (appendArtifact demoSession v0Artifact) = true ∧
    sessionInvHolds (switchVariation demoSession "art-1" 0) = true := by
  obtain ⟨h1, h2, h3, h4, h5, h6, h7⟩ := session_ops_preserve_variation_bounds
  exact ⟨h1 "s1" "Build a todo app" 0,
         h2 demoSession "art-1" "c" "r" (by decide),
         h3 demoSession "art-1" "v1" (by decide),
         h4 demoSession "art-1" "r" (by decide),
         h5 demoSession "art-1" (by decide),
         h6 demoSession v0Artifact (by decide) (by decide),
         h7 demoSession "art-1" 0 (by decide) (by decide)⟩

/-- C2 (code bug): after a terminal non-rate-limit failure the artifacts are
left with status streaming, never error: with every generation call failing,
all three seeded artifacts still have status streaming after the run (the
catch block only logs), and a failed refinement likewise leaves its target
streaming while only the isRefining flag is reset. -/
theorem terminal_failure_leaves_streaming_status :
    (startGenerationRun "Build a todo app" "s1" 0 failAllFns).artifacts.map Artifact.status
      = [ArtifactStatus.streaming, ArtifactStatus.streaming, ArtifactStatus.streaming] ∧
    (∀ a ∈ (startGenerationRun "Build a todo app" "s1" 0 failAllFns).artifacts,
        a.status ≠ ArtifactStatus.error) ∧
    ((refineArtifact demoRefineState "art-1" demoAuthFn).session.map
        (fun s => s.artifacts.map Artifact.status) = some [ArtifactStatus.streaming]) ∧
    (refineArtifact demoRefineState "art-1" demoAuthFn).isRefining = false := by decide

/-- C3 counterexample: with an in-range index pointing at a stored empty
string, switchVariation leaves content at its old non-empty value instead of
the selected variation, because the JS falsy fallback treats the empty
string like a missing entry. -/
theorem switchVariation_empty_string_counterexample :
    (switchVariation emptyVariationSession "art-1" 0).artifacts.map Artifact.content
      = ["Error generating content"] ∧
    (switchVariation emptyVariationSession "art-1" 0).artifacts.map
        Artifact.currentVariationIndex = [some 0] ∧
    emptyVariationSession.artifacts.map Artifact.variations = [some [""]] ∧
    "Error generating content" ≠ ("" : String) := by decide

/-- C3 amended: selectVariation on the target artifact always sets
currentVariationIndex to idx; with an in-range idx the content becomes
variations[idx] when that entry is non-empty and stays unchanged when the
entry is the empty string; with an out-of-range idx (or no variations list)
the content stays unchanged. -/
theorem switchVariation_content_spec :
    ∀ (s : Session) (id : String) (idx : Int) (i : Nat) (a : Artifact),
      s.artifacts[i]? = some a → a.id = id →
      ∃ a', (switchVariation s id idx).artifacts[i]? = some a' ∧
        a'.currentVariationIndex = some idx ∧
        (∀ l, a.variations = some l → ∀ (hlt : idx.toNat < l.length), 0 ≤ idx →
          (l.get ⟨idx.toNat, hlt⟩ ≠ "" → a'.content = l.get ⟨idx.toNat, hlt⟩) ∧
          (l.get ⟨idx.toNat, hlt⟩ = "" → a'.content = a.content)) ∧
        (optIndex a.variations idx = none → a'.content = a.content) := by
  intro s id idx i a hi hid
  refine ⟨switchVariationArt idx a, ?_, rfl, ?_, ?_⟩
  · rw [switchVariation]
    simp [List.getElem?_map, hi, hid]
  · intro l hl hlt h0
    have hj : jsIndex l idx = some (l.get ⟨idx.toNat, hlt⟩) := dif_pos ⟨h0, hlt⟩
    have hc : (switchVariationArt idx a).content
        = jsOrStr (some (l.get ⟨idx.toNat, hlt⟩)) a.content := by
      simp [switchVariationArt, optIndex, hl, hj]
    constructor
    · intro hne
      rw [hc]; simp only [jsOrStr]; rw [if_neg hne]
    · intro he
      rw [hc]; simp only [jsOrStr]; rw [if_pos he]
  · intro hnone
    simp [switchVariationArt, hnone, jsOrStr]

/-- Witness for C3 amended: switching demoSession to its in-range variation 0. -/
theorem switchVariation_content_spec_witness :
    ∃ a', (switchVariation demoSession "art-1" 0).artifacts[0]? = some a' ∧
      a'.currentVariationIndex = some (0 : Int) ∧
      (∀ l, v0Artifact.variations = some l →
        ∀ (hlt : (0 : Int).toNat < l.length), 0 ≤ (0 : Int) →
          (l.get ⟨(0 : Int).toNat, hlt⟩ ≠ "" →
            a'.content = l.get ⟨(0 : Int).toNat, hlt⟩) ∧
          (l.get ⟨(0 : Int).toNat, hlt⟩ = "" → a'.content = v0Artifact.content)) ∧
      (optIndex v0Artifact.variations 0 = none → a'.content = v0Artifact.content) :=
  switchVariation_content_spec demoSession "art-1" 0 0 v0Artifact rfl rfl

/-- C4: one refinement completion keeps the artifact count, leaves every
other artifact untouched, and for the target appends exactly the new content
at the end of the prior variations, sets content to it, status to complete,
and currentVariationIndex to the new last index. -/
theorem refineComplete_appends_one_variation :
    ∀ (s : Session) (id c : String),
      (refineComplete s id c).artifacts.length = s.artifacts.length ∧
      ∀ (i : Nat) (a : Artifact), s.artifacts[i]? = some a →
        ∃ a', (refineComplete s id c).artifacts[i]? = some a' ∧
          (a.id ≠ id → a' = a) ∧
          (a.id = id →
            a'.variations = some (a.variations.getD [] ++ [c]) ∧
            a'.content = c ∧
            a'.status = ArtifactStatus.complete ∧
            a'.currentVariationIndex =
              some (((a.variations.getD [] ++ [c]).length : Int) - 1)) := by
  intro s id c
  constructor
  · simp [refineComplete]
  · intro i a hi
    refine ⟨refineCompleteArt id c a, ?_, ?_, ?_⟩
    · rw [refineComplete]
      simp [List.getElem?_map, hi]
    · intro hne; simp [refineCompleteArt, hne]
    · intro hid
      cases hv : a.variations with
      | none => simp [refineCompleteArt, hid, hv]
      | some l => simp [refineCompleteArt, hid, hv]

/-- Witness for C4: refining the artifact with variations v0 yields
variations v0, v1 with currentVariationIndex 1 and content v1. -/
theorem refineComplete_appends_one_variation_witness :
    (∃ a', (refineComplete demoSession "art-1" "v1").artifacts[0]? = some a' ∧
      (v0Artifact.id ≠ "art-1" → a' = v0Artifact) ∧
      (v0Artifact.id = "art-1" →
        a'.variations = some (v0Artifact.variations.getD [] ++ ["v1"]) ∧
        a'.content = "v1" ∧
        a'.status = ArtifactStatus.complete ∧
        a'.currentVariationIndex =
          some (((v0Artifact.variations.getD [] ++ ["v1"]).length : Int) - 1))) ∧
    (refineComplete demoSession "art-1" "v1").artifacts.map Artifact.variations
      = [some ["v0", "v1"]] ∧
    (refineComplete demoSession "art-1" "v1").artifacts.map
        Artifact.currentVariationIndex = [some 1] :=
  ⟨(refineComplete_appends_one_variation demoSession "art-1" "v1").2 0 v0Artifact rfl,
   by decide, by decide⟩

/-- C7: a completion update (generation, refinement or agent expansion)
whose target id matches no artifact of the current session is a no-op: the
session value is returned unchanged, so nothing is reintroduced and every
remaining artifact is untouched. -/
theorem stale_completion_update_noop :
    ∀ (s : Session) (id c r : String) (rd : RoleDecision),
      (∀ a ∈ s.artifacts, a.id ≠ id) →
      applyCompletion s id c r = s ∧
      refineComplete s id c = s ∧
      addAgentComplete s id c rd = s := by
  intro s id c r rd h
  refine ⟨?_, ?_, ?_⟩
  · show { s with artifacts := _ } = s
    rw [map_self_of_fix fun a ha => by simp [completeArtifact, h a ha]]
  · show { s with artifacts := _ } = s
    rw [map_self_of_fix fun a ha => by simp [refineCompleteArt, h a ha]]
  · show { s with artifacts := _ } = s
    rw [map_self_of_fix fun a ha => by simp [h a ha]]

/-- Witness for C7: a completion for the absent id art-999 leaves
demoSession exactly as it was. -/
theorem stale_completion_update_noop_witness :
    applyCompletion demoSession "art-999" "c" "r" = demoSession ∧
    refineComplete demoSession "art-999" "c" = demoSession ∧
    addAgentComplete demoSession "art-999" "c" { title := none, type := none }
      = demoSession :=
  stale_completion_update_noop demoSession "art-999" "c" "r"
    { title := none, type := none } (by decide)

/-- C8 counterexample: when the phase-1 response text is invalid JSON the
parse error propagates through the retry wrapper to the catch block and
addAgent aborts, leaving the session unchanged — no default-titled artifact
is appended, refuting the claim for the invalid-JSON case. -/
theorem addAgent_invalid_json_aborts :
    addAgent demoSession false "art-99"
        (fun _ => parseRoleText demoParse (some "not json"))
        (fun _ => Except.ok "generated") = demoSession ∧
    parseRoleText demoParse (some "not json") = Except.error syntaxErrorG := by
  constructor
  · decide
  · rfl

/-- C8 amended: an empty or undefined phase-1 text parses as the default
empty object, and a role decision lacking both fields still yields an
appended artifact with the default title Module Expansion and default kind
architecture whose content generation then completes. -/
theorem addAgent_missing_fields_default :
    (∀ (parse : String → Except GError RoleDecision) (text : Option String),
      parse "\x7b\x7d" = Except.ok { title := none, type := none } →
      (text = none ∨ text = some "") →
      parseRoleText parse text = Except.ok { title := none, type := none }) ∧
    (∀ (sess : Session) (newId : String)
        (roleFn : Nat → Except GError RoleDecision)
        (contentFn : Nat → Except GError String) (content : String),
      (∀ a ∈ sess.artifacts, a.id ≠ newId) →
      (callGeminiWithRetry roleFn 3 3000).result
        = Except.ok { title := none, type := none } →
      (callGeminiWithRetry contentFn 3 3000).result = Except.ok content →
      (addAgent sess false newId roleFn contentFn).artifacts
        = sess.artifacts ++
          [{ id := newId, title := "Module Expansion",
             type := ArtifactKind.architecture, content := content,
             status := ArtifactStatus.complete,
             reasoning := some "Expansion module synthesized by undefined.",
             variations := some [content], currentVariationIndex := some 0 }]) := by
  constructor
  · intro parse text hp ht
    rcases ht with rfl | rfl <;> simpa [parseRoleText, jsOrStr] using hp
  · intro sess newId roleFn contentFn content hfresh hrole hcontent
    simp only [addAgent, Bool.false_eq_true, if_false, hrole, hcontent]
    rw [addAgentComplete, appendArtifact]
    simp only [List.map_append, List.map_cons, List.map_nil]
    rw [map_self_of_fix (fun a ha => if_neg (fun hc => hfresh a ha hc))]
    simp [mkNewAgent, jsOrStr, jsShow]

/-- Witness for C8 amended at demoParse, an empty text, and concrete oracles. -/
theorem addAgent_missing_fields_default_witness :
    parseRoleText demoParse none = Except.ok { title := none, type := none } ∧
    (addAgent demoSession false "art-99"
        (fun _ => parseRoleText demoParse none)
        (fun _ => Except.ok "generated")).artifacts
      = demoSession.artifacts ++
        [{ id := "art-99", title := "Module Expansion",
           type := ArtifactKind.architecture, content := "generated",
           status := ArtifactStatus.complete,
           reasoning := some "Expansion module synthesized by undefined.",
           variations := some ["generated"], currentVariationIndex := some 0 }] :=
  ⟨(addAgent_missing_fields_default).1 demoParse none rfl (Or.inl rfl),
   (addAgent_missing_fields_default).2 demoSession "art-99"
     (fun _ => parseRoleText demoParse none) (fun _ => Except.ok "generated")
     "generated" (by decide) rfl rfl⟩

/-- C9: exporting a session with artifacts a1, a2, a3 yields exactly one
section per artifact, in the original order, each a heading of the title
followed by that artifact content. -/
theorem exportAllArtifacts_sections_in_order :
    ∀ (s : Session) (a1 a2 a3 : Artifact), s.artifacts = [a1, a2, a3] →
      exportAllArtifacts s =
        ("## " ++ a1.title ++ "\n\n" ++ a1.content ++ "\n\n") ++ "\n" ++
        ("## " ++ a2.title ++ "\n\n" ++ a2.content ++ "\n\n") ++ "\n" ++
        ("## " ++ a3.title ++ "\n\n" ++ a3.content ++ "\n\n") := by
  intro s a1 a2 a3 h
  rw [exportAllArtifacts, h]
  rfl

set_option maxHeartbeats 1000000 in
/-- Witness for C9: exporting the freshly created three-artifact session. -/
theorem exportAllArtifacts_sections_in_order_witness :
    exportAllArtifacts (createSession "s1" "p" 0) =
      ("## " ++ "UX Expert Strategy" ++ "\n\n" ++ "" ++ "\n\n") ++ "\n" ++
      ("## " ++ "Persona Specialist Strategy" ++ "\n\n" ++ "" ++ "\n\n") ++ "\n" ++
      ("## " ++ "UI Expert Strategy" ++ "\n\n" ++ "" ++ "\n\n") :=
  exportAllArtifacts_sections_in_order (createSession "s1" "p" 0) _ _ _ rfl

/-- C10: a refinement call whose target id is absent runs after the
isRefining flag is set but returns before the try-finally, leaving
isRefining true and the session unchanged; and any call made while
isRefining is true is rejected unchanged, so the stuck flag blocks every
later refinement. -/
theorem refineArtifact_missing_target_sticks :
    (∀ (st : AppState) (sess : Session) (id : String)
        (fn : Nat → Except GError String),
      st.session = some sess → st.isRefining = false →
      (∀ a ∈ sess.artifacts, a.id ≠ id) →
      refineArtifact st id fn = { session := st.session, isRefining := true }) ∧
    (∀ (st : AppState) (id : String) (fn : Nat → Except GError String),
      st.isRefining = true → refineArtifact st id fn = st) := by
  constructor
  · intro st sess id fn hs hr h
    have hfind : sess.artifacts.find? (fun a => a.id == id) = none := by
      apply List.find?_eq_none.mpr
      intro a ha
      simp [h a ha]
    simp [refineArtifact, hs, hr, hfind]
  · intro st id fn hr
    cases hS : st.session with
    | none => simp [refineArtifact, hS]
    | some sess => simp [refineArtifact, hS, hr]

/-- Witness for C10: a missing-target refinement on demoRefineState sticks
the flag, and the stuck state rejects a later valid refinement. -/
theorem refineArtifact_missing_target_sticks_witness :
    refineArtifact demoRefineState "art-404" demoAuthFn
      = { session := demoRefineState.session, isRefining := true } ∧
    refineArtifact { session := some demoSession, isRefining := true } "art-1" demoAuthFn
      = { session := some demoSession, isRefining := true } :=
  ⟨(refineArtifact_missing_target_sticks).1 demoRefineState demoSession "art-404"
      demoAuthFn rfl rfl (by decide),
   (refineArtifact_missing_target_sticks).2
      { session := some demoSession, isRefining := true } "art-1" demoAuthFn rfl⟩

/-- C5: an operation failing with a rate-limit-marked error exactly twice and
then succeeding, run under callGeminiWithRetry with maxAttempts 3 and initial
delay d, returns the success value, is invoked exactly 3 times, and the two
waits are d * 1 then d * 2, strictly increasing when d is positive. -/
theorem retry_two_quota_then_success
    (fn : Nat → Except GError String) (e0 e1 : GError) (v : String) (d : Nat)
    (h0 : fn 0 = Except.error e0) (h1 : fn 1 = Except.error e1)
    (hq0 : isQuotaError e0 = true) (hq1 : isQuotaError e1 = true)
    (h2 : fn 2 = Except.ok v) :
    (callGeminiWithRetry fn 3 d).result = Except.ok v ∧
    (callGeminiWithRetry fn 3 d).calls = 3 ∧
    (callGeminiWithRetry fn 3 d).waits = [d * 1, d * 2] ∧
    (0 < d → d * 1 < d * 2) := by
  have hrun : callGeminiWithRetry fn 3 d = ⟨Except.ok v, 3, [d * 1, d * 2]⟩ := by
    simp [callGeminiWithRetry, retryLoop, h0, h1, h2, hq0, hq1]
  refine ⟨by rw [hrun], by rw [hrun], by rw [hrun], fun hd => ?_⟩
  omega

/-- Witness for C5 at the concrete oracle demoQuotaFn with d = 3000. -/
theorem retry_two_quota_then_success_witness :
    (callGeminiWithRetry demoQuotaFn 3 3000).result = Except.ok "done" ∧
    (callGeminiWithRetry demoQuotaFn 3 3000).calls = 3 ∧
    (callGeminiWithRetry demoQuotaFn 3 3000).waits = [3000 * 1, 3000 * 2] ∧
    (0 < 3000 → 3000 * 1 < 3000 * 2) :=
  retry_two_quota_then_success demoQuotaFn
    { message := some "429 quota" } { message := some "429 quota" } "done" 3000
    rfl rfl (by decide) (by decide) rfl

/-- C6: an operation whose first invocation fails with an error not carrying
the rate-limit marker is invoked exactly once; the same error propagates
immediately, with no backoff wait, for every positive maxAttempts. -/
theorem retry_nonquota_fails_fast {α : Type}
    (fn : Nat → Except GError α) (e : GError) (maxRetries d : Nat)
    (h0 : fn 0 = Except.error e) (hq : isQuotaError e = false)
    (hm : 1 ≤ maxRetries) :
    callGeminiWithRetry fn maxRetries d = ⟨Except.error (some e), 1, []⟩ := by
  obtain ⟨m, rfl⟩ : ∃ m, maxRetries = m + 1 :=
    ⟨maxRetries - 1, by omega⟩
  simp [callGeminiWithRetry, retryLoop, h0, hq]

/-- Witness for C6: a constant auth failure under the default policy. -/
theorem retry_nonquota_fails_fast_witness :
    callGeminiWithRetry demoAuthFn 3 3000
      = ⟨Except.error (some authError), 1, []⟩ :=
  retry_nonquota_fails_fast demoAuthFn authError 3 3000
    rfl (by decide) (by decide)
